import Mathlib

/-
Verification of the model-construction logic of keras-text-cls.

The repository wires Keras layers into two text-classification
architectures:

  * src/keras_text_cls/model/text_cnn.py   (class TextCNN)
  * src/keras_text_cls/model/text_rcnn.py  (class TextRCNN)

The shallow embedding below mirrors the functional-API wiring of the two
constructors.  A tensor is modelled by its per-example shape (the batch
axis is left implicit, as in a Keras `Input(shape=(max_seq_len,))`
placeholder) together with the symbolic expression of the layer graph that
produced it.  Each layer application performs the shape inference the
framework performs at graph-build time (valid-padding convolution and
pooling arithmetic, concatenation compatibility, sequence reduction), and
fails — as the framework does, inside `__init__` — when a shape would get a
non-positive dimension.  The dropout rate, a Python float only ever
compared against 0 and stored, is modelled exactly by a rational number.
-/

/-- Symbolic expression of a built layer graph: one constructor per layer
kind the two model builders use. -/
inductive GExpr where
  | input (seqLen : Nat)
  | embed (inputDim outputDim : Nat) (trainable : Bool) (x : GExpr)
  | conv1d (filters kernelSize : Nat) (activation : String) (x : GExpr)
  | maxpool1d (poolSize : Int) (x : GExpr)
  | flatten (x : GExpr)
  | dropout (rate : Rat) (x : GExpr)
  | dense (units : Nat) (activation : String) (x : GExpr)
  | lstm (units : Nat) (returnSequences goBackwards : Bool) (x : GExpr)
  | reverseTime (x : GExpr)
  | maxOverTime (x : GExpr)
  | concat (axis : Nat) (xs : List GExpr)

instance : Inhabited GExpr := ⟨.input 0⟩

/-- A symbolic tensor of the functional API: its per-example shape (batch
axis implicit) and the graph expression that computes it. -/
structure Tensor where
  shape : List Nat
  expr : GExpr
deriving Inhabited

/-- The embedding lookup layer returned by `init_embedding_layer`. -/
structure EmbeddingLayer where
  inputDim : Nat
  outputDim : Nat
  trainable : Bool
deriving Inhabited

/-- Modelled from the spec: the helper `init_embedding_layer` lives in
`keras_text_cls/model/utils.py`, a file of this repository that is not under
src/ (both model files import it).  Per spec section 4.1: given
(matrix-or-none, embedding_dim, vocab-size-or-none, trainable, max_seq_len)
it returns a lookup transform mapping a token id to an embedding_dim-length
vector; if a matrix is supplied, the vocab size is inferred from it and its
entries are the initial weights; it fails with a construction error if the
matrix is absent and vocab_size is not provided, or if trainable is False
while the matrix is absent. -/
def init_embedding_layer (matrix : Option (List (List Rat))) (embeddingDim : Nat)
    (vocabSize : Option Nat) (trainable : Bool) (_maxSeqLen : Nat) :
    Except String EmbeddingLayer :=
  match matrix with
  | some m =>
      if m.all (fun row => row.length == embeddingDim) then
        Except.ok ⟨m.length, embeddingDim, trainable⟩
      else
        Except.error "init_embedding_layer: matrix width differs from embedding_dim"
  | none =>
      if trainable = false then
        Except.error "init_embedding_layer: embedding_trainable must be True when embedding_matrix is None"
      else
        match vocabSize with
        | none =>
            Except.error "init_embedding_layer: embedding_vocab_size must be set when embedding_matrix is None"
        | some v => Except.ok ⟨v, embeddingDim, true⟩

/-- The `keras.layers.Input(shape=(max_seq_len,), dtype=int32)` placeholder. -/
def inputTensor (seqLen : Nat) : Tensor :=
  ⟨[seqLen], .input seqLen⟩

/-- Applying the embedding layer: a sequence of token ids of shape (L,)
becomes (L, output_dim). -/
def embeddingLayerApply (e : EmbeddingLayer) (t : Tensor) : Tensor :=
  ⟨t.shape ++ [e.outputDim], .embed e.inputDim e.outputDim e.trainable t.expr⟩

/-- `Conv1D(filters, kernel_size, activation)` with valid padding: on a
(steps, channels) input the output is (steps - kernel_size + 1, filters);
the framework rejects the graph when that length would be non-positive. -/
def conv1dLayer (filters kernelSize : Nat) (activation : String) (t : Tensor) :
    Except String Tensor :=
  match t.shape with
  | [steps, _channels] =>
      if 1 ≤ kernelSize ∧ kernelSize ≤ steps then
        Except.ok ⟨[steps - kernelSize + 1, filters],
                   .conv1d filters kernelSize activation t.expr⟩
      else Except.error "Conv1D: negative dimension size"
  | _ => Except.error "Conv1D: input must be (batch, steps, channels)"

/-- `MaxPooling1D(pool_size)` with the default stride (= pool_size) and valid
padding: (steps, channels) becomes ((steps - pool_size) / pool_size + 1,
channels).  The pool size is an integer expression of the source
(`max_seq_len - fsz + 1`) and may be non-positive, which the framework
rejects at graph-build time. -/
def maxPooling1dLayer (poolSize : Int) (t : Tensor) : Except String Tensor :=
  match t.shape with
  | [steps, channels] =>
      if 1 ≤ poolSize ∧ poolSize ≤ (steps : Int) then
        Except.ok ⟨[(steps - poolSize.toNat) / poolSize.toNat + 1, channels],
                   .maxpool1d poolSize t.expr⟩
      else Except.error "MaxPooling1D: invalid pool size"
  | _ => Except.error "MaxPooling1D: input must be (batch, steps, channels)"

/-- `Flatten()`: all per-example axes collapse into one of their product. -/
def flattenLayer (t : Tensor) : Except String Tensor :=
  Except.ok ⟨[t.shape.prod], .flatten t.expr⟩

/-- `Dropout(rate)`: shape preserved.  The Keras Dropout layer accepts any
rate at construction (Keras 2 clips it into [0, 1] internally), so the
application never fails. -/
def dropoutLayer (rate : Rat) (t : Tensor) : Except String Tensor :=
  Except.ok ⟨t.shape, .dropout rate t.expr⟩

/-- `Dense(units, activation)`: the last feature axis is replaced by
`units`; the input must have a feature axis. -/
def denseLayer (units : Nat) (activation : String) (t : Tensor) :
    Except String Tensor :=
  match t.shape with
  | [] => Except.error "Dense: input must have a feature axis"
  | d :: rest =>
      Except.ok ⟨(d :: rest).dropLast ++ [units], .dense units activation t.expr⟩

/-- `LSTM(units, return_sequences, go_backwards)`: a (steps, features) input
yields (steps, units) in return-full-sequence mode, (units,) otherwise. -/
def lstmLayer (units : Nat) (returnSequences goBackwards : Bool) (t : Tensor) :
    Except String Tensor :=
  match t.shape with
  | [steps, _features] =>
      Except.ok ⟨if returnSequences then [steps, units] else [units],
                 .lstm units returnSequences goBackwards t.expr⟩
  | _ => Except.error "LSTM: input must be (batch, steps, features)"

/-- `Lambda(lambda x: K.reverse(x, axes=1))`: reversal along the time axis,
shape preserved; axis 1 must exist. -/
def reverseLayer (t : Tensor) : Except String Tensor :=
  if 1 ≤ t.shape.length then Except.ok ⟨t.shape, .reverseTime t.expr⟩
  else Except.error "reverse: axis 1 out of range"

/-- `Lambda(lambda x: K.max(x, axis=1))`: element-wise maximum over the
sequence axis, which disappears from the shape. -/
def maxAxis1Layer (t : Tensor) : Except String Tensor :=
  match t.shape with
  | _ :: rest => Except.ok ⟨rest, .maxOverTime t.expr⟩
  | [] => Except.error "max: axis 1 out of range"

/-- Whether two shapes agree everywhere except (possibly) at axis `ax`. -/
def sameShapeExcept (ax : Nat) (a b : List Nat) : Bool :=
  a.length == b.length &&
    (List.range a.length).all (fun i => i == ax || a.getD i 0 == b.getD i 0)

/-- `keras.layers.concatenate(tensors, axis)`: at least two inputs, all of
the same rank and agreeing off the concatenation axis; the given axis counts
the batch axis, so axis - 1 of the per-example shapes is summed. -/
def concatenateLayer (ts : List Tensor) (axis : Nat) : Except String Tensor :=
  match ts with
  | [] => Except.error "Concatenate: called on fewer than 2 inputs"
  | [_] => Except.error "Concatenate: called on fewer than 2 inputs"
  | t :: rest =>
      let ax := axis - 1
      if ax < t.shape.length ∧
          rest.all (fun r => sameShapeExcept ax t.shape r.shape) = true then
        Except.ok ⟨t.shape.set ax
                     ((t :: rest).foldl (fun acc r => acc + r.shape.getD ax 0) 0),
                   .concat axis ((t :: rest).map Tensor.expr)⟩
      else Except.error "Concatenate: shape mismatch"

/-- Elementwise traversal of a list under `Except`, mirroring the Python
loops that build one layer output per element. -/
def mapME (f : α → Except String β) : List α → Except String (List β)
  | [] => Except.ok []
  | x :: xs => do
      let y ← f x
      let ys ← mapME f xs
      return y :: ys

/-- The stacked hidden dense layers (shared shape of both builders): each
configured width gets a Dense layer with the configured activation,
followed by Dropout when the dropout rate is positive. -/
def hiddenStack (unitsList : List Nat) (activation : String) (dropout : Rat)
    (t : Tensor) : Except String Tensor :=
  match unitsList with
  | [] => Except.ok t
  | n :: rest => do
      let t1 ← denseLayer n activation t
      let t2 ← if dropout > 0 then dropoutLayer dropout t1 else pure t1
      hiddenStack rest activation dropout t2

/-- Applying the compiled `keras.Model(input, output)` to a concrete batch
input: the framework checks the input against the declared Input placeholder
(second axis = the placeholder's sequence length) and produces the batch
axis followed by the model's per-example output shape. -/
def kerasModelApply (inputSeqLen : Nat) (outputShape : List Nat)
    (inputShape : List Nat) : Except String (List Nat) :=
  match inputShape with
  | [b, l] =>
      if l = inputSeqLen then Except.ok (b :: outputShape)
      else Except.error "framework: input shape incompatible with Input layer"
  | _ => Except.error "framework: input rank incompatible with Input layer"

/-- Constructor configuration of TextCNN (src/keras_text_cls/model/text_cnn.py,
lines 52-57). -/
structure TextCNNConfig where
  num_classes : Nat
  embedding_dim : Nat
  embedding_matrix : Option (List (List Rat))
  embedding_trainable : Bool
  embedding_vocab_size : Option Nat
  num_filters : Nat
  filter_sizes : List Nat
  pooling_strategy : String
  max_seq_len : Nat
  num_hidden_units : List Nat
  hidden_activation : String
  dropout : Rat
  multi_label : Bool

/-- Constructor configuration of TextRCNN (src/keras_text_cls/model/text_rcnn.py,
lines 52-57). -/
structure TextRCNNConfig where
  num_classes : Nat
  embedding_dim : Nat
  embedding_matrix : Option (List (List Rat))
  embedding_trainable : Bool
  embedding_vocab_size : Option Nat
  rnn_hidden_units : Nat
  conv_hidden_units : Nat
  pooling_strategy : String
  max_seq_len : Nat
  num_hidden_units : List Nat
  hidden_activation : String
  dropout : Rat
  multi_label : Bool

namespace TextCNN

/-- The embedded input `x = layer_embedding(input)` of text_cnn.py line 109. -/
def xT (c : TextCNNConfig) (e : EmbeddingLayer) : Tensor :=
  embeddingLayerApply e (inputTensor c.max_seq_len)

/-- One convolutional branch of text_cnn.py lines 80-84 and 111-115:
`Conv1D(num_filters, fsz, activation=relu)`, then
`MaxPooling1D(max_seq_len - fsz + 1)`, then `Flatten()`. -/
def convBranch (c : TextCNNConfig) (x : Tensor) (fsz : Nat) :
    Except String Tensor := do
  let a ← conv1dLayer c.num_filters fsz "relu" x
  let b ← maxPooling1dLayer ((c.max_seq_len : Int) - (fsz : Int) + 1) a
  flattenLayer b

/-- The value a successful convolutional branch evaluates to (proved in
`convBranch_eval`): a flat vector of num_filters features. -/
def branchTensor (c : TextCNNConfig) (e : EmbeddingLayer) (fsz : Nat) : Tensor :=
  ⟨[c.num_filters],
   .flatten (.maxpool1d ((c.max_seq_len : Int) - (fsz : Int) + 1)
     (.conv1d c.num_filters fsz "relu" (xT c e).expr))⟩

/-- The wiring of text_cnn.py lines 110-121 from the embedded input to the
output tensor: the branches in filter_sizes order, their concatenation on
axis 1, the optional dropout, the hidden stack, and the final dense layer. -/
def graphOutput (c : TextCNNConfig) (x : Tensor) : Except String Tensor := do
  let convs ← mapME (convBranch c x) c.filter_sizes
  let y ← concatenateLayer convs 1
  let y2 ← if c.dropout > 0 then dropoutLayer c.dropout y else pure y
  let y3 ← hiddenStack c.num_hidden_units c.hidden_activation c.dropout y2
  denseLayer c.num_classes (if c.multi_label then "sigmoid" else "softmax") y3

/-- A constructed TextCNN: the stored configuration attributes and the
output tensor of the built `keras.Model`. -/
structure Model where
  config : TextCNNConfig
  output : Tensor

/-- The output tensor of the graph `TextCNN.__init__` wires (text_cnn.py
lines 72-121): build the embedding layer, embed the input placeholder, and
wire the branches, concatenation, dropout, hidden stack and output layer. -/
def buildOutput (c : TextCNNConfig) : Except String Tensor := do
  let e ← init_embedding_layer c.embedding_matrix c.embedding_dim
            c.embedding_vocab_size c.embedding_trainable c.max_seq_len
  graphOutput c (embeddingLayerApply e (inputTensor c.max_seq_len))

/-- `TextCNN.__init__` (text_cnn.py lines 52-123): store the configuration
attributes and keep the compiled `keras.Model(input, output)`. -/
def init (c : TextCNNConfig) : Except String Model := do
  let out ← buildOutput c
  return { config := c, output := out }

/-- `TextCNN.call` (text_cnn.py lines 125-131): assert that the input is
rank-2, then delegate to the compiled model. -/
def call (m : Model) (inputShape : List Nat) :
    Except String (Model × List Nat) :=
  if inputShape.length = 2 then
    match kerasModelApply m.config.max_seq_len m.output.shape inputShape with
    | Except.ok o => Except.ok (m, o)
    | Except.error e => Except.error e
  else Except.error "AssertionError"

/-- A sequence of call invocations against a model, threading the model
value each successful call returns. -/
def callSeq (m : Model) (inputs : List (List Nat)) : Model :=
  match inputs with
  | [] => m
  | i :: rest =>
      match call m i with
      | Except.ok (m2, _) => callSeq m2 rest
      | Except.error _ => callSeq m rest

end TextCNN

namespace TextRCNN

/-- The embedded input `x = layer_embedding(input)` of text_rcnn.py line 104. -/
def xT (c : TextRCNNConfig) (e : EmbeddingLayer) : Tensor :=
  embeddingLayerApply e (inputTensor c.max_seq_len)

/-- The forward recurrent pass (text_rcnn.py lines 77, 105). -/
def forwardT (c : TextRCNNConfig) (e : EmbeddingLayer) : Tensor :=
  ⟨[c.max_seq_len, c.rnn_hidden_units],
   .lstm c.rnn_hidden_units true false (xT c e).expr⟩

/-- The backward recurrent pass before re-reversal (lines 78, 106). -/
def backward0T (c : TextRCNNConfig) (e : EmbeddingLayer) : Tensor :=
  ⟨[c.max_seq_len, c.rnn_hidden_units],
   .lstm c.rnn_hidden_units true true (xT c e).expr⟩

/-- The backward pass after reversal along the time axis (lines 80, 107). -/
def backwardT (c : TextRCNNConfig) (e : EmbeddingLayer) : Tensor :=
  ⟨[c.max_seq_len, c.rnn_hidden_units], .reverseTime (backward0T c e).expr⟩

/-- The per-position concatenation [forward, embedding, backward] (line 108). -/
def togetherT (c : TextRCNNConfig) (e : EmbeddingLayer) : Tensor :=
  ⟨[c.max_seq_len, c.rnn_hidden_units + c.embedding_dim + c.rnn_hidden_units],
   .concat 2 [(forwardT c e).expr, (xT c e).expr, (backwardT c e).expr]⟩

/-- The kernel-width-1 semantic convolution (lines 82, 109). -/
def semanticT (c : TextRCNNConfig) (e : EmbeddingLayer) : Tensor :=
  ⟨[c.max_seq_len, c.conv_hidden_units],
   .conv1d c.conv_hidden_units 1 "tanh" (togetherT c e).expr⟩

/-- The max over the sequence axis (lines 83, 110). -/
def pooledT (c : TextRCNNConfig) (e : EmbeddingLayer) : Tensor :=
  ⟨[c.conv_hidden_units], .maxOverTime (semanticT c e).expr⟩

/-- A constructed TextRCNN: the stored configuration attributes and the
output tensor of the built `keras.Model`. -/
structure Model where
  config : TextRCNNConfig
  output : Tensor

/-- The output tensor of the graph `TextRCNN.__init__` wires (text_rcnn.py
lines 71-114): build the embedding layer, run both recurrent passes,
reverse the backward one, concatenate, convolve, max-pool over time, then
the hidden stack and the output layer. -/
def buildOutput (c : TextRCNNConfig) : Except String Tensor := do
  let e ← init_embedding_layer c.embedding_matrix c.embedding_dim
            c.embedding_vocab_size c.embedding_trainable c.max_seq_len
  let x := embeddingLayerApply e (inputTensor c.max_seq_len)
  let forward ← lstmLayer c.rnn_hidden_units true false x
  let backward0 ← lstmLayer c.rnn_hidden_units true true x
  let backward ← reverseLayer backward0
  let together ← concatenateLayer [forward, x, backward] 2
  let semantic ← conv1dLayer c.conv_hidden_units 1 "tanh" together
  let pooled ← maxAxis1Layer semantic
  let y ← hiddenStack c.num_hidden_units c.hidden_activation c.dropout pooled
  denseLayer c.num_classes
    (if c.multi_label then "sigmoid" else "softmax") y

/-- `TextRCNN.__init__` (text_rcnn.py lines 52-116): store the configuration
attributes and keep the compiled `keras.Model(input, output)`. -/
def init (c : TextRCNNConfig) : Except String Model := do
  let out ← buildOutput c
  return { config := c, output := out }

/-- `TextRCNN.call` (text_rcnn.py lines 118-124): assert that the input is
rank-2, then delegate to the compiled model. -/
def call (m : Model) (inputShape : List Nat) :
    Except String (Model × List Nat) :=
  if inputShape.length = 2 then
    match kerasModelApply m.config.max_seq_len m.output.shape inputShape with
    | Except.ok o => Except.ok (m, o)
    | Except.error e => Except.error e
  else Except.error "AssertionError"

/-- A sequence of call invocations against a model, threading the model
value each successful call returns. -/
def callSeq (m : Model) (inputs : List (List Nat)) : Model :=
  match inputs with
  | [] => m
  | i :: rest =>
      match call m i with
      | Except.ok (m2, _) => callSeq m2 rest
      | Except.error _ => callSeq m rest

end TextRCNN

/-! Example configurations used to witness the theorems at concrete inputs. -/

/-- A small valid TextCNN configuration. -/
def exCNNConfig : TextCNNConfig :=
  { num_classes := 2, embedding_dim := 2, embedding_matrix := none,
    embedding_trainable := true, embedding_vocab_size := some 5,
    num_filters := 1, filter_sizes := [2, 3], pooling_strategy := "REDUCE_MAX",
    max_seq_len := 3, num_hidden_units := [], hidden_activation := "relu",
    dropout := 1, multi_label := true }

/-- The model the example TextCNN configuration constructs. -/
def exCNNModel : TextCNN.Model :=
  (TextCNN.init exCNNConfig).toOption.getD ⟨exCNNConfig, default⟩

/-- A small valid TextRCNN configuration, with a pre-trained matrix. -/
def exRCNNConfig : TextRCNNConfig :=
  { num_classes := 2, embedding_dim := 2,
    embedding_matrix := some [[0, 0], [0, 0], [0, 0]],
    embedding_trainable := false, embedding_vocab_size := none,
    rnn_hidden_units := 2, conv_hidden_units := 2,
    pooling_strategy := "REDUCE_MAX",
    max_seq_len := 3, num_hidden_units := [2], hidden_activation := "relu",
    dropout := 1, multi_label := true }

/-- The model the example TextRCNN configuration constructs. -/
def exRCNNModel : TextRCNN.Model :=
  (TextRCNN.init exRCNNConfig).toOption.getD ⟨exRCNNConfig, default⟩

/-- The example TextCNN configuration with a filter size (5) larger than
max_seq_len (3). -/
def cnnBadFilterConfig : TextCNNConfig :=
  { exCNNConfig with filter_sizes := [2, 5] }

/-- The example TextCNN configuration with dropout = 2, outside [0, 1]. -/
def cnnDropoutTwoConfig : TextCNNConfig :=
  { exCNNConfig with dropout := 2 }

/-- The model the dropout = 2 configuration constructs. -/
def cnnDropoutTwoModel : TextCNN.Model :=
  (TextCNN.init cnnDropoutTwoConfig).toOption.getD ⟨cnnDropoutTwoConfig, default⟩

/-- The example TextCNN configuration with no embedding matrix and no
vocabulary size. -/
def cnnNoVocabConfig : TextCNNConfig :=
  { exCNNConfig with embedding_vocab_size := none }

/-- The example TextRCNN configuration with no embedding matrix while
embedding_trainable is false. -/
def rcnnNoMatrixConfig : TextRCNNConfig :=
  { exRCNNConfig with embedding_matrix := none }

/-! Generic lemmas for dissecting `Except` computations. -/

theorem except_bind_ok {α β : Type} {x : Except String α}
    {f : α → Except String β} {b : β} (h : (x >>= f) = Except.ok b) :
    ∃ a, x = Except.ok a ∧ f a = Except.ok b := by
  cases x with
  | error e => exact absurd h (by simp [Bind.bind, Except.bind])
  | ok a => exact ⟨a, rfl, by simpa [Bind.bind, Except.bind] using h⟩

theorem except_ok_bind {α β : Type} (a : α) (f : α → Except String β) :
    (Except.ok a >>= f) = f a := rfl

theorem except_error_bind {α β : Type} (e : String) (f : α → Except String β) :
    ((Except.error e : Except String α) >>= f) = Except.error e := rfl

theorem mapME_cons_ok {α β : Type} {f : α → Except String β} {a : α}
    {as : List α} {ys : List β} (h : mapME f (a :: as) = Except.ok ys) :
    ∃ y ys2, f a = Except.ok y ∧ mapME f as = Except.ok ys2 ∧ ys = y :: ys2 := by
  rw [mapME] at h
  obtain ⟨y, hy, h2⟩ := except_bind_ok h
  obtain ⟨ys2, hys2, h3⟩ := except_bind_ok h2
  refine ⟨y, ys2, hy, hys2, ?_⟩
  simpa [pure, Except.pure] using h3.symm

theorem mapME_ok_mem {α β : Type} {f : α → Except String β} :
    ∀ {xs : List α} {ys : List β}, mapME f xs = Except.ok ys →
      ∀ x ∈ xs, ∃ y, f x = Except.ok y := by
  intro xs
  induction xs with
  | nil => intro ys _ x hx; cases hx
  | cons a as ih =>
      intro ys h x hx
      obtain ⟨y, ys2, hy, hys2, _⟩ := mapME_cons_ok h
      rcases List.mem_cons.mp hx with rfl | hmem
      · exact ⟨y, hy⟩
      · exact ih hys2 x hmem

theorem mapME_eq_map {α β : Type} {f : α → Except String β} {g : α → β} :
    ∀ {xs : List α}, (∀ x ∈ xs, f x = Except.ok (g x)) →
      mapME f xs = Except.ok (xs.map g) := by
  intro xs
  induction xs with
  | nil => intro _; rfl
  | cons a as ih =>
      intro h
      rw [mapME]
      rw [h a (List.mem_cons_self a as)]
      rw [except_ok_bind]
      rw [ih (fun x hx => h x (List.mem_cons_of_mem a hx))]
      rfl

/-! Evaluation lemmas for single layers. -/

theorem conv1dLayer_eval {filters w L d : Nat} {act : String} {x : Tensor}
    (hx : x.shape = [L, d]) (h1 : 1 ≤ w) (h2 : w ≤ L) :
    conv1dLayer filters w act x =
      Except.ok ⟨[L - w + 1, filters], .conv1d filters w act x.expr⟩ := by
  simp [conv1dLayer, hx, h1, h2]

theorem conv1dLayer_error {filters w L d : Nat} {act : String} {x : Tensor}
    (hx : x.shape = [L, d]) (hb : ¬(1 ≤ w ∧ w ≤ L)) :
    conv1dLayer filters w act x =
      Except.error "Conv1D: negative dimension size" := by
  simp [conv1dLayer, hx, hb]

theorem conv1dLayer_ok_bounds {filters w L d : Nat} {act : String} {x : Tensor}
    {t : Tensor} (hx : x.shape = [L, d])
    (h : conv1dLayer filters w act x = Except.ok t) : 1 ≤ w ∧ w ≤ L := by
  by_cases hb : 1 ≤ w ∧ w ≤ L
  · exact hb
  · rw [conv1dLayer_error hx hb] at h
    exact absurd h (by simp)

theorem maxPooling1dLayer_full {steps ch : Nat} {t : Tensor}
    (ht : t.shape = [steps, ch]) (h1 : 1 ≤ steps) :
    maxPooling1dLayer (steps : Int) t =
      Except.ok ⟨[1, ch], .maxpool1d (steps : Int) t.expr⟩ := by
  have hg : (1 : Int) ≤ (steps : Int) ∧ (steps : Int) ≤ (steps : Int) := by omega
  have htn : (steps : Int).toNat = steps := Int.toNat_natCast steps
  simp [maxPooling1dLayer, ht, hg, htn, Nat.sub_self, Nat.zero_div]

theorem flattenLayer_eval (t : Tensor) :
    flattenLayer t = Except.ok ⟨[t.shape.prod], .flatten t.expr⟩ := rfl

theorem sameShapeExcept_self (ax : Nat) (s : List Nat) :
    sameShapeExcept ax s s = true := by
  simp [sameShapeExcept]

theorem convBranch_eval {c : TextCNNConfig} {e : EmbeddingLayer} {w : Nat}
    (h1 : 1 ≤ w) (h2 : w ≤ c.max_seq_len) :
    TextCNN.convBranch c (TextCNN.xT c e) w =
      Except.ok (TextCNN.branchTensor c e w) := by
  have hx : (TextCNN.xT c e).shape = [c.max_seq_len, e.outputDim] := rfl
  have hpool : (c.max_seq_len : Int) - (w : Int) + 1 =
      ((c.max_seq_len - w + 1 : Nat) : Int) := by omega
  unfold TextCNN.convBranch
  rw [conv1dLayer_eval hx h1 h2, except_ok_bind, hpool]
  have hA : (⟨[c.max_seq_len - w + 1, c.num_filters],
      .conv1d c.num_filters w "relu" (TextCNN.xT c e).expr⟩ : Tensor).shape
      = [c.max_seq_len - w + 1, c.num_filters] := rfl
  rw [maxPooling1dLayer_full hA (by omega), except_ok_bind, flattenLayer_eval]
  rw [TextCNN.branchTensor, hpool]
  simp

theorem convBranch_ok_bounds {c : TextCNNConfig} {x : Tensor} {w L d : Nat}
    {t : Tensor} (hx : x.shape = [L, d])
    (h : TextCNN.convBranch c x w = Except.ok t) : 1 ≤ w ∧ w ≤ L := by
  unfold TextCNN.convBranch at h
  obtain ⟨a, ha, _⟩ := except_bind_ok h
  exact conv1dLayer_ok_bounds hx ha

theorem foldl_getD_sum {k : Nat} :
    ∀ (ts : List Tensor) (a : Nat), (∀ t ∈ ts, t.shape = [k]) →
      ts.foldl (fun acc r => acc + r.shape.getD 0 0) a = a + ts.length * k := by
  intro ts
  induction ts with
  | nil => intro a _; simp
  | cons t rest ih =>
      intro a h
      rw [List.foldl_cons, h t (List.mem_cons_self t rest)]
      rw [ih (a + [k].getD 0 0) (fun u hu => h u (List.mem_cons_of_mem t hu))]
      simp [List.getD]
      ring

theorem concat_axis1_uniform {k : Nat} {ts : List Tensor}
    (h2 : 2 ≤ ts.length) (hall : ∀ t ∈ ts, t.shape = [k]) :
    concatenateLayer ts 1 =
      Except.ok ⟨[ts.length * k], .concat 1 (ts.map Tensor.expr)⟩ := by
  cases ts with
  | nil => simp at h2
  | cons t1 ts1 =>
      cases ts1 with
      | nil => simp at h2
      | cons t2 rest =>
          have h1 : t1.shape = [k] := hall t1 (by simp)
          have hcond : (0 : Nat) < t1.shape.length ∧
              (t2 :: rest).all
                (fun r => sameShapeExcept 0 t1.shape r.shape) = true := by
            constructor
            · rw [h1]; simp
            · rw [List.all_eq_true]
              intro r hr
              rw [h1, hall r (List.mem_cons_of_mem t1 hr)]
              exact sameShapeExcept_self 0 [k]
          have hsum : (t1 :: t2 :: rest).foldl
              (fun acc r => acc + r.shape.getD 0 0) 0 =
              (t1 :: t2 :: rest).length * k := by
            rw [foldl_getD_sum (t1 :: t2 :: rest) 0 hall]
            simp
          simp only [concatenateLayer]
          rw [if_pos]
          · rw [hsum, h1]
            rfl
          · simpa using hcond

theorem sameShapeExcept_axis1 (L a b : Nat) :
    sameShapeExcept 1 [L, a] [L, b] = true := by
  simp only [sameShapeExcept, List.length_cons, List.length_nil]
  rw [Bool.and_eq_true]
  refine ⟨by simp, ?_⟩
  rw [List.all_eq_true]
  intro i hi
  rw [List.mem_range] at hi
  interval_cases i <;> simp

theorem concat_axis2_three {t1 t2 t3 : Tensor} {L a b c : Nat}
    (h1 : t1.shape = [L, a]) (h2 : t2.shape = [L, b]) (h3 : t3.shape = [L, c]) :
    concatenateLayer [t1, t2, t3] 2 =
      Except.ok ⟨[L, a + b + c], .concat 2 [t1.expr, t2.expr, t3.expr]⟩ := by
  have hcond : (1 : Nat) < t1.shape.length ∧
      ([t2, t3]).all (fun r => sameShapeExcept 1 t1.shape r.shape) = true := by
    constructor
    · rw [h1]; simp
    · rw [List.all_eq_true]
      intro r hr
      rcases List.mem_cons.mp hr with rfl | hr2
      · rw [h1, h2]; exact sameShapeExcept_axis1 L a b
      · rw [List.mem_singleton.mp hr2, h1, h3]; exact sameShapeExcept_axis1 L a c
  have hsum : ([t1, t2, t3]).foldl (fun acc r => acc + r.shape.getD 1 0) 0 =
      a + b + c := by
    simp [List.foldl_cons, h1, h2, h3, List.getD]
  simp only [concatenateLayer]
  rw [if_pos]
  · rw [hsum, h1]
    rfl
  · simpa using hcond

theorem dropoutIf_exists (r : Rat) (t : Tensor) :
    ∃ u, (if r > 0 then dropoutLayer r t else pure t) = Except.ok u ∧
      u.shape = t.shape := by
  by_cases h : r > 0
  · exact ⟨⟨t.shape, .dropout r t.expr⟩, by simp [h, dropoutLayer], rfl⟩
  · exact ⟨t, by simp [h, pure, Except.pure], rfl⟩

theorem hiddenStack_rank1 :
    ∀ (units : List Nat) (act : String) (r : Rat) (t : Tensor) (k : Nat),
      t.shape = [k] →
      ∃ u b, hiddenStack units act r t = Except.ok u ∧ u.shape = [b] := by
  intro units
  induction units with
  | nil => intro act r t k ht; exact ⟨t, k, rfl, ht⟩
  | cons n rest ih =>
      intro act r t k ht
      have hd : denseLayer n act t = Except.ok ⟨[n], .dense n act t.expr⟩ := by
        simp [denseLayer, ht]
      by_cases hr : r > 0
      · obtain ⟨u, bb, hu, hub⟩ :=
          ih act r ⟨[n], .dropout r (.dense n act t.expr)⟩ n rfl
        refine ⟨u, bb, ?_, hub⟩
        simp only [hiddenStack]
        rw [hd, except_ok_bind, if_pos hr]
        rw [show dropoutLayer r (⟨[n], .dense n act t.expr⟩ : Tensor) =
              Except.ok ⟨[n], .dropout r (.dense n act t.expr)⟩ from rfl]
        rw [except_ok_bind]
        exact hu
      · obtain ⟨u, bb, hu, hub⟩ := ih act r ⟨[n], .dense n act t.expr⟩ n rfl
        refine ⟨u, bb, ?_, hub⟩
        simp only [hiddenStack]
        rw [hd, except_ok_bind, if_neg hr]
        rw [show (pure (⟨[n], .dense n act t.expr⟩ : Tensor) :
              Except String Tensor) =
              Except.ok ⟨[n], .dense n act t.expr⟩ from rfl]
        rw [except_ok_bind]
        exact hu

theorem dropoutIf_bind_ok {r : Rat} {t : Tensor} {α : Type}
    {k : Tensor → Except String α} {res : α}
    (h : (if r > 0 then dropoutLayer r t >>= k else pure t >>= k) =
      Except.ok res) :
    ∃ u, u.shape = t.shape ∧ k u = Except.ok res := by
  by_cases hr : r > 0
  · rw [if_pos hr] at h
    exact ⟨⟨t.shape, .dropout r t.expr⟩, rfl,
      by simpa [dropoutLayer, except_ok_bind] using h⟩
  · rw [if_neg hr] at h
    exact ⟨t, rfl, by simpa [pure, Except.pure, except_ok_bind] using h⟩

theorem concatenateLayer_ok_length {ts : List Tensor} {ax : Nat} {u : Tensor}
    (h : concatenateLayer ts ax = Except.ok u) : 2 ≤ ts.length := by
  cases ts with
  | nil => simp [concatenateLayer] at h
  | cons t1 ts1 =>
      cases ts1 with
      | nil => simp [concatenateLayer] at h
      | cons t2 rest => simp

/-- Full dissection of a successful TextCNN construction: the embedding
layer, the per-branch bounds the framework enforced, the branch values, the
concatenation, and the final output tensor. -/
theorem textcnn_init_anatomy {c : TextCNNConfig} {m : TextCNN.Model}
    (h : TextCNN.init c = Except.ok m) :
    m.config = c ∧
    ∃ e cc,
      init_embedding_layer c.embedding_matrix c.embedding_dim
        c.embedding_vocab_size c.embedding_trainable c.max_seq_len =
        Except.ok e ∧
      (∀ w ∈ c.filter_sizes, 1 ≤ w ∧ w ≤ c.max_seq_len) ∧
      2 ≤ c.filter_sizes.length ∧
      mapME (TextCNN.convBranch c (TextCNN.xT c e)) c.filter_sizes =
        Except.ok (c.filter_sizes.map (TextCNN.branchTensor c e)) ∧
      concatenateLayer (c.filter_sizes.map (TextCNN.branchTensor c e)) 1 =
        Except.ok cc ∧
      cc.shape = [c.num_filters * c.filter_sizes.length] ∧
      cc.expr = .concat 1
        ((c.filter_sizes.map (TextCNN.branchTensor c e)).map Tensor.expr) ∧
      TextCNN.graphOutput c (TextCNN.xT c e) = Except.ok m.output ∧
      m.output.shape = [c.num_classes] ∧
      ∃ inner, m.output.expr =
        .dense c.num_classes
          (if c.multi_label then "sigmoid" else "softmax") inner := by
  unfold TextCNN.init at h
  obtain ⟨out, hBO, h3⟩ := except_bind_ok h
  unfold TextCNN.buildOutput at hBO
  obtain ⟨e, hE, hG⟩ := except_bind_ok hBO
  have hm : m = ⟨c, out⟩ := by simpa [pure, Except.pure] using h3.symm
  have hout : m.output = out := by rw [hm]
  have hGx : TextCNN.graphOutput c (TextCNN.xT c e) = Except.ok out := hG
  have hG2 := hGx
  unfold TextCNN.graphOutput at hG2
  obtain ⟨convs, hconvs, hg2⟩ := except_bind_ok hG2
  obtain ⟨cc0, hcc, hg3⟩ := except_bind_ok hg2
  obtain ⟨y2, hy2shape, hk⟩ := dropoutIf_bind_ok hg3
  obtain ⟨y3, hy3, hdense⟩ := except_bind_ok hk
  have hx : (TextCNN.xT c e).shape = [c.max_seq_len, e.outputDim] := rfl
  have hbounds : ∀ w ∈ c.filter_sizes, 1 ≤ w ∧ w ≤ c.max_seq_len := by
    intro w hw
    obtain ⟨t, ht⟩ := mapME_ok_mem hconvs w hw
    exact convBranch_ok_bounds hx ht
  have hmap : mapME (TextCNN.convBranch c (TextCNN.xT c e)) c.filter_sizes =
      Except.ok (c.filter_sizes.map (TextCNN.branchTensor c e)) :=
    mapME_eq_map (fun w hw =>
      convBranch_eval (hbounds w hw).1 (hbounds w hw).2)
  have hconvs_eq : convs = c.filter_sizes.map (TextCNN.branchTensor c e) := by
    have := hconvs.symm.trans hmap
    exact Except.ok.inj this
  have hlen : 2 ≤ c.filter_sizes.length := by
    have := concatenateLayer_ok_length hcc
    rw [hconvs_eq, List.length_map] at this
    exact this
  have hall : ∀ t ∈ c.filter_sizes.map (TextCNN.branchTensor c e),
      t.shape = [c.num_filters] := by
    intro t ht
    obtain ⟨w, _, rfl⟩ := List.mem_map.mp ht
    rfl
  have hccval : concatenateLayer
      (c.filter_sizes.map (TextCNN.branchTensor c e)) 1 =
      Except.ok ⟨[(c.filter_sizes.map (TextCNN.branchTensor c e)).length *
                    c.num_filters],
        .concat 1 ((c.filter_sizes.map (TextCNN.branchTensor c e)).map
          Tensor.expr)⟩ :=
    concat_axis1_uniform (by rw [List.length_map]; exact hlen) hall
  have hcc' : concatenateLayer
      (c.filter_sizes.map (TextCNN.branchTensor c e)) 1 = Except.ok cc0 := by
    rw [← hconvs_eq]; exact hcc
  have hcc0 : cc0 = ⟨[(c.filter_sizes.map (TextCNN.branchTensor c e)).length *
                    c.num_filters],
        .concat 1 ((c.filter_sizes.map (TextCNN.branchTensor c e)).map
          Tensor.expr)⟩ :=
    Except.ok.inj (hcc'.symm.trans hccval)
  obtain ⟨u, bb, hu, hub⟩ := hiddenStack_rank1 c.num_hidden_units
    c.hidden_activation c.dropout y2
    ((c.filter_sizes.map (TextCNN.branchTensor c e)).length * c.num_filters)
    (by rw [hy2shape, hcc0])
  have hy3u : y3 = u := Except.ok.inj (hy3.symm.trans hu)
  have hy3shape : y3.shape = [bb] := by rw [hy3u]; exact hub
  have hdout : out = ⟨[c.num_classes],
      .dense c.num_classes (if c.multi_label then "sigmoid" else "softmax")
        y3.expr⟩ := by
    have : denseLayer c.num_classes
        (if c.multi_label then "sigmoid" else "softmax") y3 =
        Except.ok ⟨[c.num_classes],
          .dense c.num_classes
            (if c.multi_label then "sigmoid" else "softmax") y3.expr⟩ := by
      simp [denseLayer, hy3shape]
    exact (Except.ok.inj (hdense.symm.trans this))
  refine ⟨by rw [hm], e, cc0, hE, hbounds, hlen, hmap, hcc', ?_, ?_, ?_, ?_, ?_⟩
  · rw [hcc0, List.length_map, Nat.mul_comm]
  · rw [hcc0]
  · rw [hout]; exact hGx
  · rw [hout, hdout]
  · exact ⟨y3.expr, by rw [hout, hdout]⟩

theorem emb_outputDim {mx : Option (List (List Rat))} {dim : Nat}
    {vs : Option Nat} {tr : Bool} {L : Nat} {e : EmbeddingLayer}
    (h : init_embedding_layer mx dim vs tr L = Except.ok e) :
    e.outputDim = dim := by
  unfold init_embedding_layer at h
  split at h
  · split at h
    · exact (Except.ok.inj h) ▸ rfl
    · simp at h
  · split at h
    · simp at h
    · split at h
      · simp at h
      · exact (Except.ok.inj h) ▸ rfl

/-- Full dissection of a successful TextRCNN construction: both recurrent
passes, the reversal, the concatenation, the semantic convolution, the
max over time, and the final output tensor. -/
theorem textrcnn_init_anatomy {c : TextRCNNConfig} {m : TextRCNN.Model}
    (h : TextRCNN.init c = Except.ok m) :
    m.config = c ∧ 1 ≤ c.max_seq_len ∧
    ∃ e,
      init_embedding_layer c.embedding_matrix c.embedding_dim
        c.embedding_vocab_size c.embedding_trainable c.max_seq_len =
        Except.ok e ∧
      e.outputDim = c.embedding_dim ∧
      lstmLayer c.rnn_hidden_units true false (TextRCNN.xT c e) =
        Except.ok (TextRCNN.forwardT c e) ∧
      lstmLayer c.rnn_hidden_units true true (TextRCNN.xT c e) =
        Except.ok (TextRCNN.backward0T c e) ∧
      reverseLayer (TextRCNN.backward0T c e) =
        Except.ok (TextRCNN.backwardT c e) ∧
      concatenateLayer [TextRCNN.forwardT c e, TextRCNN.xT c e,
        TextRCNN.backwardT c e] 2 = Except.ok (TextRCNN.togetherT c e) ∧
      conv1dLayer c.conv_hidden_units 1 "tanh" (TextRCNN.togetherT c e) =
        Except.ok (TextRCNN.semanticT c e) ∧
      maxAxis1Layer (TextRCNN.semanticT c e) =
        Except.ok (TextRCNN.pooledT c e) ∧
      (∃ y, hiddenStack c.num_hidden_units c.hidden_activation c.dropout
          (TextRCNN.pooledT c e) = Except.ok y ∧
        denseLayer c.num_classes
          (if c.multi_label then "sigmoid" else "softmax") y =
          Except.ok m.output) ∧
      m.output.shape = [c.num_classes] ∧
      ∃ inner, m.output.expr =
        .dense c.num_classes
          (if c.multi_label then "sigmoid" else "softmax") inner := by
  unfold TextRCNN.init at h
  obtain ⟨out, hBO, h10⟩ := except_bind_ok h
  unfold TextRCNN.buildOutput at hBO
  obtain ⟨e, hE, h2⟩ := except_bind_ok hBO
  obtain ⟨fwd, hfwd, h3⟩ := except_bind_ok h2
  obtain ⟨bwd0, hbwd0, h4⟩ := except_bind_ok h3
  obtain ⟨bwd, hbwd, h5⟩ := except_bind_ok h4
  obtain ⟨tg, htg, h6⟩ := except_bind_ok h5
  obtain ⟨sm, hsm, h7⟩ := except_bind_ok h6
  obtain ⟨pl, hpl, h8⟩ := except_bind_ok h7
  obtain ⟨y, hy, hdense⟩ := except_bind_ok h8
  have hm : m = ⟨c, out⟩ := by simpa [pure, Except.pure] using h10.symm
  have hout : m.output = out := by rw [hm]
  have houtdim : e.outputDim = c.embedding_dim := emb_outputDim hE
  have hfwd_can : lstmLayer c.rnn_hidden_units true false (TextRCNN.xT c e) =
      Except.ok (TextRCNN.forwardT c e) := rfl
  have hfwd_val : fwd = TextRCNN.forwardT c e :=
    Except.ok.inj (hfwd.symm.trans hfwd_can)
  have hbwd0_can : lstmLayer c.rnn_hidden_units true true (TextRCNN.xT c e) =
      Except.ok (TextRCNN.backward0T c e) := rfl
  have hbwd0_val : bwd0 = TextRCNN.backward0T c e :=
    Except.ok.inj (hbwd0.symm.trans hbwd0_can)
  have hbwd_can : reverseLayer (TextRCNN.backward0T c e) =
      Except.ok (TextRCNN.backwardT c e) := rfl
  have hbwd_val : bwd = TextRCNN.backwardT c e := by
    rw [hbwd0_val] at hbwd
    exact Except.ok.inj (hbwd.symm.trans hbwd_can)
  rw [hfwd_val, hbwd_val] at htg
  have htg_can : concatenateLayer [TextRCNN.forwardT c e, TextRCNN.xT c e,
      TextRCNN.backwardT c e] 2 =
      Except.ok ⟨[c.max_seq_len,
          c.rnn_hidden_units + e.outputDim + c.rnn_hidden_units],
        .concat 2 [(TextRCNN.forwardT c e).expr, (TextRCNN.xT c e).expr,
          (TextRCNN.backwardT c e).expr]⟩ :=
    concat_axis2_three rfl rfl rfl
  have htg_can2 : concatenateLayer [TextRCNN.forwardT c e, TextRCNN.xT c e,
      TextRCNN.backwardT c e] 2 = Except.ok (TextRCNN.togetherT c e) := by
    rw [htg_can, houtdim]
    rfl
  have htg_val : tg = TextRCNN.togetherT c e :=
    Except.ok.inj (htg.symm.trans htg_can2)
  rw [htg_val] at hsm
  have hshape_tg : (TextRCNN.togetherT c e).shape = [c.max_seq_len,
      c.rnn_hidden_units + c.embedding_dim + c.rnn_hidden_units] := rfl
  have hL : 1 ≤ c.max_seq_len :=
    (conv1dLayer_ok_bounds hshape_tg hsm).2
  have hsm_can : conv1dLayer c.conv_hidden_units 1 "tanh"
      (TextRCNN.togetherT c e) = Except.ok (TextRCNN.semanticT c e) := by
    rw [conv1dLayer_eval hshape_tg (Nat.le_refl 1) hL]
    have : c.max_seq_len - 1 + 1 = c.max_seq_len := by omega
    rw [this]
    rfl
  have hsm_val : sm = TextRCNN.semanticT c e :=
    Except.ok.inj (hsm.symm.trans hsm_can)
  rw [hsm_val] at hpl
  have hpl_can : maxAxis1Layer (TextRCNN.semanticT c e) =
      Except.ok (TextRCNN.pooledT c e) := rfl
  have hpl_val : pl = TextRCNN.pooledT c e :=
    Except.ok.inj (hpl.symm.trans hpl_can)
  rw [hpl_val] at hy
  obtain ⟨u, bb, hu, hub⟩ := hiddenStack_rank1 c.num_hidden_units
    c.hidden_activation c.dropout (TextRCNN.pooledT c e)
    c.conv_hidden_units rfl
  have hyu : y = u := Except.ok.inj (hy.symm.trans hu)
  have hyshape : y.shape = [bb] := by rw [hyu]; exact hub
  have hdout : out = ⟨[c.num_classes],
      .dense c.num_classes (if c.multi_label then "sigmoid" else "softmax")
        y.expr⟩ := by
    have hcan : denseLayer c.num_classes
        (if c.multi_label then "sigmoid" else "softmax") y =
        Except.ok ⟨[c.num_classes],
          .dense c.num_classes
            (if c.multi_label then "sigmoid" else "softmax") y.expr⟩ := by
      simp [denseLayer, hyshape]
    exact Except.ok.inj (hdense.symm.trans hcan)
  refine ⟨by rw [hm], hL, e, hE, houtdim, hfwd_can, hbwd0_can, hbwd_can,
    htg_can2, hsm_can, hpl_can, ⟨y, hy, by rw [hout]; exact hdense⟩, ?_, ?_⟩
  · rw [hout, hdout]
  · exact ⟨y.expr, by rw [hout, hdout]⟩

/-- Claim C1: for every TextCNN configuration whose construction succeeds,
the built layer graph contains, for each window size w in filter_sizes (in
list order), a branch applying a 1-D convolution with num_filters output
channels, kernel width w and ReLU activation, then a max-pool of window
size max_seq_len - w + 1 over the sequence, then a flatten producing a
vector of length num_filters; and the branch outputs are concatenated in
filter_sizes order into one vector of length
num_filters * |filter_sizes|. -/
theorem claim_C1_textcnn_conv_branches {c : TextCNNConfig}
    {m : TextCNN.Model} (h : TextCNN.init c = Except.ok m) :
    ∃ e cc,
      init_embedding_layer c.embedding_matrix c.embedding_dim
        c.embedding_vocab_size c.embedding_trainable c.max_seq_len =
        Except.ok e ∧
      (∀ w ∈ c.filter_sizes,
        TextCNN.convBranch c (TextCNN.xT c e) w =
          Except.ok (TextCNN.branchTensor c e w) ∧
        (TextCNN.branchTensor c e w).shape = [c.num_filters] ∧
        (TextCNN.branchTensor c e w).expr =
          .flatten (.maxpool1d ((c.max_seq_len : Int) - (w : Int) + 1)
            (.conv1d c.num_filters w "relu" (TextCNN.xT c e).expr))) ∧
      mapME (TextCNN.convBranch c (TextCNN.xT c e)) c.filter_sizes =
        Except.ok (c.filter_sizes.map (TextCNN.branchTensor c e)) ∧
      concatenateLayer (c.filter_sizes.map (TextCNN.branchTensor c e)) 1 =
        Except.ok cc ∧
      cc.shape = [c.num_filters * c.filter_sizes.length] ∧
      cc.expr = .concat 1
        ((c.filter_sizes.map (TextCNN.branchTensor c e)).map Tensor.expr) ∧
      TextCNN.graphOutput c (TextCNN.xT c e) = Except.ok m.output := by
  obtain ⟨-, e, cc, hE, hb, _, hmap, hcc, hshape, hexpr, hgraph, -, -⟩ :=
    textcnn_init_anatomy h
  exact ⟨e, cc, hE,
    fun w hw => ⟨convBranch_eval (hb w hw).1 (hb w hw).2, rfl, rfl⟩,
    hmap, hcc, hshape, hexpr, hgraph⟩

/-- Witness for C1 at the example configuration: the two branches (window
sizes 2 and 3) each flatten to one filter and concatenate to a vector of
length 2. -/
theorem claim_C1_witness :
    ∃ e cc,
      init_embedding_layer exCNNConfig.embedding_matrix
        exCNNConfig.embedding_dim exCNNConfig.embedding_vocab_size
        exCNNConfig.embedding_trainable exCNNConfig.max_seq_len =
        Except.ok e ∧
      (∀ w ∈ exCNNConfig.filter_sizes,
        TextCNN.convBranch exCNNConfig (TextCNN.xT exCNNConfig e) w =
          Except.ok (TextCNN.branchTensor exCNNConfig e w) ∧
        (TextCNN.branchTensor exCNNConfig e w).shape =
          [exCNNConfig.num_filters] ∧
        (TextCNN.branchTensor exCNNConfig e w).expr =
          .flatten (.maxpool1d ((exCNNConfig.max_seq_len : Int) - (w : Int) + 1)
            (.conv1d exCNNConfig.num_filters w "relu"
              (TextCNN.xT exCNNConfig e).expr))) ∧
      mapME (TextCNN.convBranch exCNNConfig (TextCNN.xT exCNNConfig e))
        exCNNConfig.filter_sizes =
        Except.ok (exCNNConfig.filter_sizes.map
          (TextCNN.branchTensor exCNNConfig e)) ∧
      concatenateLayer (exCNNConfig.filter_sizes.map
        (TextCNN.branchTensor exCNNConfig e)) 1 = Except.ok cc ∧
      cc.shape = [exCNNConfig.num_filters *
        exCNNConfig.filter_sizes.length] ∧
      cc.expr = .concat 1
        ((exCNNConfig.filter_sizes.map
          (TextCNN.branchTensor exCNNConfig e)).map Tensor.expr) ∧
      TextCNN.graphOutput exCNNConfig (TextCNN.xT exCNNConfig e) =
        Except.ok exCNNModel.output :=
  claim_C1_textcnn_conv_branches (m := exCNNModel) rfl

/-- Claim C2: for every TextRCNN configuration whose construction succeeds,
the built graph runs a forward and a backward recurrent layer (the latter
reading the sequence in reverse) each producing rnn_hidden_units states per
position in return-full-sequence mode, reverses the backward output along
the time axis, concatenates [forward-state, raw-embedding, backward-state]
per position to width rnn_hidden_units + embedding_dim + rnn_hidden_units,
applies a kernel-width-1 convolution to conv_hidden_units channels with
tanh activation, and takes an element-wise max over the sequence axis
yielding one vector of length conv_hidden_units per example. -/
theorem claim_C2_textrcnn_graph {c : TextRCNNConfig} {m : TextRCNN.Model}
    (h : TextRCNN.init c = Except.ok m) :
    ∃ e,
      init_embedding_layer c.embedding_matrix c.embedding_dim
        c.embedding_vocab_size c.embedding_trainable c.max_seq_len =
        Except.ok e ∧
      lstmLayer c.rnn_hidden_units true false (TextRCNN.xT c e) =
        Except.ok (TextRCNN.forwardT c e) ∧
      (TextRCNN.forwardT c e).shape = [c.max_seq_len, c.rnn_hidden_units] ∧
      lstmLayer c.rnn_hidden_units true true (TextRCNN.xT c e) =
        Except.ok (TextRCNN.backward0T c e) ∧
      (TextRCNN.backward0T c e).shape =
        [c.max_seq_len, c.rnn_hidden_units] ∧
      reverseLayer (TextRCNN.backward0T c e) =
        Except.ok (TextRCNN.backwardT c e) ∧
      (TextRCNN.backwardT c e).expr =
        .reverseTime (TextRCNN.backward0T c e).expr ∧
      concatenateLayer [TextRCNN.forwardT c e, TextRCNN.xT c e,
        TextRCNN.backwardT c e] 2 = Except.ok (TextRCNN.togetherT c e) ∧
      (TextRCNN.togetherT c e).shape = [c.max_seq_len,
        c.rnn_hidden_units + c.embedding_dim + c.rnn_hidden_units] ∧
      conv1dLayer c.conv_hidden_units 1 "tanh" (TextRCNN.togetherT c e) =
        Except.ok (TextRCNN.semanticT c e) ∧
      (TextRCNN.semanticT c e).shape =
        [c.max_seq_len, c.conv_hidden_units] ∧
      maxAxis1Layer (TextRCNN.semanticT c e) =
        Except.ok (TextRCNN.pooledT c e) ∧
      (TextRCNN.pooledT c e).shape = [c.conv_hidden_units] ∧
      (TextRCNN.pooledT c e).expr =
        .maxOverTime (TextRCNN.semanticT c e).expr := by
  obtain ⟨-, -, e, hE, -, hfwd, hbwd0, hbwd, htg, hsm, hpl, -, -, -⟩ :=
    textrcnn_init_anatomy h
  exact ⟨e, hE, hfwd, rfl, hbwd0, rfl, hbwd, rfl, htg, rfl, hsm, rfl,
    hpl, rfl, rfl⟩

/-- Witness for C2 at the example configuration (rnn_hidden_units = 2,
embedding_dim = 2, conv_hidden_units = 2, max_seq_len = 3). -/
theorem claim_C2_witness :
    ∃ e,
      init_embedding_layer exRCNNConfig.embedding_matrix
        exRCNNConfig.embedding_dim exRCNNConfig.embedding_vocab_size
        exRCNNConfig.embedding_trainable exRCNNConfig.max_seq_len =
        Except.ok e ∧
      lstmLayer exRCNNConfig.rnn_hidden_units true false
        (TextRCNN.xT exRCNNConfig e) =
        Except.ok (TextRCNN.forwardT exRCNNConfig e) ∧
      (TextRCNN.forwardT exRCNNConfig e).shape =
        [exRCNNConfig.max_seq_len, exRCNNConfig.rnn_hidden_units] ∧
      lstmLayer exRCNNConfig.rnn_hidden_units true true
        (TextRCNN.xT exRCNNConfig e) =
        Except.ok (TextRCNN.backward0T exRCNNConfig e) ∧
      (TextRCNN.backward0T exRCNNConfig e).shape =
        [exRCNNConfig.max_seq_len, exRCNNConfig.rnn_hidden_units] ∧
      reverseLayer (TextRCNN.backward0T exRCNNConfig e) =
        Except.ok (TextRCNN.backwardT exRCNNConfig e) ∧
      (TextRCNN.backwardT exRCNNConfig e).expr =
        .reverseTime (TextRCNN.backward0T exRCNNConfig e).expr ∧
      concatenateLayer [TextRCNN.forwardT exRCNNConfig e,
        TextRCNN.xT exRCNNConfig e, TextRCNN.backwardT exRCNNConfig e] 2 =
        Except.ok (TextRCNN.togetherT exRCNNConfig e) ∧
      (TextRCNN.togetherT exRCNNConfig e).shape =
        [exRCNNConfig.max_seq_len, exRCNNConfig.rnn_hidden_units +
          exRCNNConfig.embedding_dim + exRCNNConfig.rnn_hidden_units] ∧
      conv1dLayer exRCNNConfig.conv_hidden_units 1 "tanh"
        (TextRCNN.togetherT exRCNNConfig e) =
        Except.ok (TextRCNN.semanticT exRCNNConfig e) ∧
      (TextRCNN.semanticT exRCNNConfig e).shape =
        [exRCNNConfig.max_seq_len, exRCNNConfig.conv_hidden_units] ∧
      maxAxis1Layer (TextRCNN.semanticT exRCNNConfig e) =
        Except.ok (TextRCNN.pooledT exRCNNConfig e) ∧
      (TextRCNN.pooledT exRCNNConfig e).shape =
        [exRCNNConfig.conv_hidden_units] ∧
      (TextRCNN.pooledT exRCNNConfig e).expr =
        .maxOverTime (TextRCNN.semanticT exRCNNConfig e).expr :=
  claim_C2_textrcnn_graph (m := exRCNNModel) rfl

/-- Claim C3: for every configuration of either model whose construction
succeeds, the final layer of the built graph is a dense layer of width
num_classes with sigmoid activation when multi_label and softmax otherwise,
and calling the constructed model on a rank-2 input of shape
(batch, max_seq_len) returns a rank-2 output of shape
(batch, num_classes). -/
theorem claim_C3_output_layer_and_shape :
    (∀ (c : TextCNNConfig) (m : TextCNN.Model),
      TextCNN.init c = Except.ok m →
      (∃ inner, m.output.expr = .dense c.num_classes
          (if c.multi_label then "sigmoid" else "softmax") inner) ∧
      m.output.shape = [c.num_classes] ∧
      ∀ b : Nat, TextCNN.call m [b, c.max_seq_len] =
        Except.ok (m, [b, c.num_classes])) ∧
    (∀ (c : TextRCNNConfig) (m : TextRCNN.Model),
      TextRCNN.init c = Except.ok m →
      (∃ inner, m.output.expr = .dense c.num_classes
          (if c.multi_label then "sigmoid" else "softmax") inner) ∧
      m.output.shape = [c.num_classes] ∧
      ∀ b : Nat, TextRCNN.call m [b, c.max_seq_len] =
        Except.ok (m, [b, c.num_classes])) := by
  constructor
  · intro c m h
    obtain ⟨hcfg, e, cc, -, -, -, -, -, -, -, -, hshape, hdense⟩ :=
      textcnn_init_anatomy h
    refine ⟨hdense, hshape, ?_⟩
    intro b
    have hk : kerasModelApply m.config.max_seq_len m.output.shape
        [b, c.max_seq_len] = Except.ok [b, c.num_classes] := by
      simp [kerasModelApply, hcfg, hshape]
    simp [TextCNN.call, hk]
  · intro c m h
    obtain ⟨hcfg, -, e, -, -, -, -, -, -, -, -, -, hshape, hdense⟩ :=
      textrcnn_init_anatomy h
    refine ⟨hdense, hshape, ?_⟩
    intro b
    have hk : kerasModelApply m.config.max_seq_len m.output.shape
        [b, c.max_seq_len] = Except.ok [b, c.num_classes] := by
      simp [kerasModelApply, hcfg, hshape]
    simp [TextRCNN.call, hk]

/-- Witness for C3: both example models, called on a full batch input,
return (batch, num_classes). -/
theorem claim_C3_witness :
    TextCNN.call exCNNModel [4, 3] = Except.ok (exCNNModel, [4, 2]) ∧
    TextRCNN.call exRCNNModel [1, 3] = Except.ok (exRCNNModel, [1, 2]) :=
  ⟨(claim_C3_output_layer_and_shape.1 exCNNConfig exCNNModel rfl).2.2 4,
   (claim_C3_output_layer_and_shape.2 exRCNNConfig exRCNNModel rfl).2.2 1⟩

/-- Claim C6: constructing TextCNN with some filter size greater than
max_seq_len fails at construction time (init itself returns an error,
before any call): the conv output length and pooling window
max_seq_len - w + 1 would be non-positive. -/
theorem claim_C6_oversized_filter_fails {c : TextCNNConfig} {w : Nat}
    (hw : w ∈ c.filter_sizes) (hgt : c.max_seq_len < w) :
    ∃ msg, TextCNN.init c = Except.error msg := by
  cases hinit : TextCNN.init c with
  | error msg => exact ⟨msg, rfl⟩
  | ok m =>
      obtain ⟨-, e, cc, -, hb, -⟩ := textcnn_init_anatomy hinit
      exact absurd (hb w hw).2 (by omega)

/-- Witness for C6: filter size 5 against max_seq_len 3 makes construction
fail. -/
theorem claim_C6_witness :
    (5 ∈ cnnBadFilterConfig.filter_sizes ∧
      cnnBadFilterConfig.max_seq_len < 5) ∧
    ∃ msg, TextCNN.init cnnBadFilterConfig = Except.error msg :=
  ⟨⟨by decide, by decide⟩,
   claim_C6_oversized_filter_fails (w := 5) (by decide) (by decide)⟩

theorem init_embedding_layer_none_error (dim L : Nat) {vs : Option Nat}
    {tr : Bool} (h : vs = none ∨ tr = false) :
    ∃ msg, init_embedding_layer none dim vs tr L = Except.error msg := by
  unfold init_embedding_layer
  by_cases htr : tr = false
  · rw [if_pos htr]
    exact ⟨_, rfl⟩
  · rw [if_neg htr]
    rcases h with hvs | hvs
    · rw [hvs]
      exact ⟨_, rfl⟩
    · exact absurd hvs htr

theorem textcnn_init_emb_error {c : TextCNNConfig} {msg : String}
    (h : init_embedding_layer c.embedding_matrix c.embedding_dim
      c.embedding_vocab_size c.embedding_trainable c.max_seq_len =
      Except.error msg) :
    TextCNN.init c = Except.error msg := by
  unfold TextCNN.init TextCNN.buildOutput
  rw [h]
  rfl

theorem textrcnn_init_emb_error {c : TextRCNNConfig} {msg : String}
    (h : init_embedding_layer c.embedding_matrix c.embedding_dim
      c.embedding_vocab_size c.embedding_trainable c.max_seq_len =
      Except.error msg) :
    TextRCNN.init c = Except.error msg := by
  unfold TextRCNN.init TextRCNN.buildOutput
  rw [h]
  rfl

theorem call_fst_eq_cnn {m m2 : TextCNN.Model} {i o : List Nat}
    (h : TextCNN.call m i = Except.ok (m2, o)) : m2 = m := by
  unfold TextCNN.call at h
  by_cases hlen : i.length = 2
  · rw [if_pos hlen] at h
    cases hk : kerasModelApply m.config.max_seq_len m.output.shape i with
    | ok o2 =>
        rw [hk] at h
        exact (congrArg Prod.fst (Except.ok.inj h)).symm
    | error e =>
        rw [hk] at h
        exact absurd h (by simp)
  · rw [if_neg hlen] at h
    exact absurd h (by simp)

theorem call_fst_eq_rcnn {m m2 : TextRCNN.Model} {i o : List Nat}
    (h : TextRCNN.call m i = Except.ok (m2, o)) : m2 = m := by
  unfold TextRCNN.call at h
  by_cases hlen : i.length = 2
  · rw [if_pos hlen] at h
    cases hk : kerasModelApply m.config.max_seq_len m.output.shape i with
    | ok o2 =>
        rw [hk] at h
        exact (congrArg Prod.fst (Except.ok.inj h)).symm
    | error e =>
        rw [hk] at h
        exact absurd h (by simp)
  · rw [if_neg hlen] at h
    exact absurd h (by simp)

theorem callSeq_fixed_cnn : ∀ (m : TextCNN.Model) (calls : List (List Nat)),
    TextCNN.callSeq m calls = m := by
  intro m calls
  induction calls generalizing m with
  | nil => rfl
  | cons i rest ih =>
      simp only [TextCNN.callSeq]
      cases hc : TextCNN.call m i with
      | ok p =>
          obtain ⟨m2, o⟩ := p
          have : m2 = m := call_fst_eq_cnn hc
          rw [this]
          exact ih m
      | error e => exact ih m

theorem callSeq_fixed_rcnn : ∀ (m : TextRCNN.Model) (calls : List (List Nat)),
    TextRCNN.callSeq m calls = m := by
  intro m calls
  induction calls generalizing m with
  | nil => rfl
  | cons i rest ih =>
      simp only [TextRCNN.callSeq]
      cases hc : TextRCNN.call m i with
      | ok p =>
          obtain ⟨m2, o⟩ := p
          have : m2 = m := call_fst_eq_rcnn hc
          rw [this]
          exact ih m
      | error e => exact ih m

theorem call_delegates_cnn (m : TextCNN.Model) (b k : Nat) :
    TextCNN.call m [b, k] = (kerasModelApply m.config.max_seq_len
      m.output.shape [b, k]).map (fun o => (m, o)) := by
  unfold TextCNN.call
  rw [if_pos (by simp)]
  cases kerasModelApply m.config.max_seq_len m.output.shape [b, k] <;>
    simp [Except.map]

theorem call_delegates_rcnn (m : TextRCNN.Model) (b k : Nat) :
    TextRCNN.call m [b, k] = (kerasModelApply m.config.max_seq_len
      m.output.shape [b, k]).map (fun o => (m, o)) := by
  unfold TextRCNN.call
  rw [if_pos (by simp)]
  cases kerasModelApply m.config.max_seq_len m.output.shape [b, k] <;>
    simp [Except.map]

/-- Claim C5: for either constructed model, call fails with an assertion
error when the input rank is not 2 (no silent reshape), and for rank-2
inputs the assertion passes and the compiled model is applied. -/
theorem claim_C5_call_rank2_assertion :
    (∀ (m : TextCNN.Model) (s : List Nat), s.length ≠ 2 →
      TextCNN.call m s = Except.error "AssertionError") ∧
    (∀ (m : TextCNN.Model) (s : List Nat), s.length = 2 →
      TextCNN.call m s = (kerasModelApply m.config.max_seq_len
        m.output.shape s).map (fun o => (m, o))) ∧
    (∀ (m : TextRCNN.Model) (s : List Nat), s.length ≠ 2 →
      TextRCNN.call m s = Except.error "AssertionError") ∧
    (∀ (m : TextRCNN.Model) (s : List Nat), s.length = 2 →
      TextRCNN.call m s = (kerasModelApply m.config.max_seq_len
        m.output.shape s).map (fun o => (m, o))) := by
  refine ⟨?_, ?_, ?_, ?_⟩
  · intro m s hlen
    unfold TextCNN.call
    rw [if_neg hlen]
  · intro m s hlen
    unfold TextCNN.call
    rw [if_pos hlen]
    cases kerasModelApply m.config.max_seq_len m.output.shape s <;>
      simp [Except.map]
  · intro m s hlen
    unfold TextRCNN.call
    rw [if_neg hlen]
  · intro m s hlen
    unfold TextRCNN.call
    rw [if_pos hlen]
    cases kerasModelApply m.config.max_seq_len m.output.shape s <;>
      simp [Except.map]

/-- Witness for C5: a rank-1 and a rank-3 input are rejected by the
assertion on both example models; a rank-2 input reaches the framework. -/
theorem claim_C5_witness :
    TextCNN.call exCNNModel [4] = Except.error "AssertionError" ∧
    TextCNN.call exCNNModel [4, 3, 1] = Except.error "AssertionError" ∧
    TextRCNN.call exRCNNModel [4] = Except.error "AssertionError" ∧
    TextCNN.call exCNNModel [4, 3] = (kerasModelApply
      exCNNModel.config.max_seq_len exCNNModel.output.shape [4, 3]).map
      (fun o => (exCNNModel, o)) :=
  ⟨claim_C5_call_rank2_assertion.1 exCNNModel [4] (by decide),
   claim_C5_call_rank2_assertion.1 exCNNModel [4, 3, 1] (by decide),
   claim_C5_call_rank2_assertion.2.2.1 exRCNNModel [4] (by decide),
   claim_C5_call_rank2_assertion.2.1 exCNNModel [4, 3] (by decide)⟩

/-- Claim C7: constructing either model with embedding_matrix = None fails
at construction time when embedding_vocab_size = None, and likewise when
embedding_trainable = False (the embedding helper is modelled from the
spec, its file not being under src/). -/
theorem claim_C7_embedding_config_errors :
    (∀ c : TextCNNConfig, c.embedding_matrix = none →
      c.embedding_vocab_size = none ∨ c.embedding_trainable = false →
      ∃ msg, TextCNN.init c = Except.error msg) ∧
    (∀ c : TextRCNNConfig, c.embedding_matrix = none →
      c.embedding_vocab_size = none ∨ c.embedding_trainable = false →
      ∃ msg, TextRCNN.init c = Except.error msg) := by
  constructor
  · intro c hmx hbad
    obtain ⟨msg, hmsg⟩ := init_embedding_layer_none_error
      c.embedding_dim c.max_seq_len hbad
    rw [← hmx] at hmsg
    exact ⟨msg, textcnn_init_emb_error hmsg⟩
  · intro c hmx hbad
    obtain ⟨msg, hmsg⟩ := init_embedding_layer_none_error
      c.embedding_dim c.max_seq_len hbad
    rw [← hmx] at hmsg
    exact ⟨msg, textrcnn_init_emb_error hmsg⟩

/-- Witness for C7: the example configurations with a missing vocabulary
size (TextCNN) and with a frozen absent matrix (TextRCNN) both fail. -/
theorem claim_C7_witness :
    (∃ msg, TextCNN.init cnnNoVocabConfig = Except.error msg) ∧
    (∃ msg, TextRCNN.init rcnnNoMatrixConfig = Except.error msg) :=
  ⟨claim_C7_embedding_config_errors.1 cnnNoVocabConfig rfl (Or.inl rfl),
   claim_C7_embedding_config_errors.2 rcnnNoMatrixConfig rfl (Or.inr rfl)⟩

/-- Claim C9: call mutates no model state: a successful call returns the
model with its configuration attributes and built graph unchanged, and any
sequence of call invocations leaves the model exactly as construction
produced it. -/
theorem claim_C9_call_mutates_nothing :
    (∀ (m m2 : TextCNN.Model) (i o : List Nat),
      TextCNN.call m i = Except.ok (m2, o) → m2 = m) ∧
    (∀ (m : TextCNN.Model) (calls : List (List Nat)),
      TextCNN.callSeq m calls = m) ∧
    (∀ (m m2 : TextRCNN.Model) (i o : List Nat),
      TextRCNN.call m i = Except.ok (m2, o) → m2 = m) ∧
    (∀ (m : TextRCNN.Model) (calls : List (List Nat)),
      TextRCNN.callSeq m calls = m) :=
  ⟨fun _ _ _ _ h => call_fst_eq_cnn h, callSeq_fixed_cnn,
   fun _ _ _ _ h => call_fst_eq_rcnn h, callSeq_fixed_rcnn⟩

/-- Witness for C9: a successful call on the example model returns the very
same model, and a sequence of calls (one well-shaped, one malformed) leaves
it unchanged. -/
theorem claim_C9_witness :
    exCNNModel = exCNNModel ∧
    TextCNN.callSeq exCNNModel [[4, 3], [9]] = exCNNModel ∧
    exRCNNModel = exRCNNModel ∧
    TextRCNN.callSeq exRCNNModel [[1, 3]] = exRCNNModel :=
  ⟨claim_C9_call_mutates_nothing.1 exCNNModel exCNNModel [4, 3] [4, 2] rfl,
   claim_C9_call_mutates_nothing.2.1 exCNNModel [[4, 3], [9]],
   claim_C9_call_mutates_nothing.2.2.1 exRCNNModel exRCNNModel [1, 3] [1, 2]
     rfl,
   claim_C9_call_mutates_nothing.2.2.2 exRCNNModel [[1, 3]]⟩

/-- Claim C10: the call-time precondition checks only the rank: a rank-2
input [b, k] passes the model's own assertion for every k, also when k
differs from max_seq_len, and the call is delegated whole to the framework
computation, so the only possible failure there is the framework's shape
error, not this code's assertion. -/
theorem claim_C10_rank_only_precondition :
    (∀ (m : TextCNN.Model) (b k : Nat),
      TextCNN.call m [b, k] = (kerasModelApply m.config.max_seq_len
        m.output.shape [b, k]).map (fun o => (m, o)) ∧
      (k ≠ m.config.max_seq_len → TextCNN.call m [b, k] =
        Except.error "framework: input shape incompatible with Input layer")) ∧
    (∀ (m : TextRCNN.Model) (b k : Nat),
      TextRCNN.call m [b, k] = (kerasModelApply m.config.max_seq_len
        m.output.shape [b, k]).map (fun o => (m, o)) ∧
      (k ≠ m.config.max_seq_len → TextRCNN.call m [b, k] =
        Except.error "framework: input shape incompatible with Input layer")) := by
  constructor
  · intro m b k
    have hdeleg := call_delegates_cnn m b k
    refine ⟨hdeleg, ?_⟩
    intro hk
    rw [hdeleg]
    simp [kerasModelApply, hk, Except.map]
  · intro m b k
    have hdeleg := call_delegates_rcnn m b k
    refine ⟨hdeleg, ?_⟩
    intro hk
    rw [hdeleg]
    simp [kerasModelApply, hk, Except.map]

/-- Witness for C10: a rank-2 input with second dimension 7 (max_seq_len is
3) passes the assertion of both example models and fails only inside the
delegated framework computation. -/
theorem claim_C10_witness :
    TextCNN.call exCNNModel [1, 7] =
      Except.error "framework: input shape incompatible with Input layer" ∧
    TextRCNN.call exRCNNModel [1, 7] =
      Except.error "framework: input shape incompatible with Input layer" :=
  ⟨(claim_C10_rank_only_precondition.1 exCNNModel 1 7).2 (by decide),
   (claim_C10_rank_only_precondition.2 exRCNNModel 1 7).2 (by decide)⟩

theorem textcnn_reconfig (b : Except String Tensor) (c1 : TextCNNConfig)
    (f : TextCNN.Model → TextCNN.Model) :
    (b >>= fun out => pure (f ⟨c1, out⟩)) =
    (b >>= fun out => pure (⟨c1, out⟩ : TextCNN.Model)).map f := by
  cases b <;> rfl

theorem textrcnn_reconfig (b : Except String Tensor) (c1 : TextRCNNConfig)
    (f : TextRCNN.Model → TextRCNN.Model) :
    (b >>= fun out => pure (f ⟨c1, out⟩)) =
    (b >>= fun out => pure (⟨c1, out⟩ : TextRCNN.Model)).map f := by
  cases b <;> rfl

theorem textcnn_init_pooling (c : TextCNNConfig) (s : String) :
    TextCNN.init { c with pooling_strategy := s } =
      (TextCNN.init c).map (fun m =>
        { m with config := { m.config with pooling_strategy := s } }) :=
  textcnn_reconfig (TextCNN.buildOutput c) c
    (fun m => { m with config := { m.config with pooling_strategy := s } })

theorem textrcnn_init_pooling (c : TextRCNNConfig) (s : String) :
    TextRCNN.init { c with pooling_strategy := s } =
      (TextRCNN.init c).map (fun m =>
        { m with config := { m.config with pooling_strategy := s } }) :=
  textrcnn_reconfig (TextRCNN.buildOutput c) c
    (fun m => { m with config := { m.config with pooling_strategy := s } })

theorem textcnn_init_output_eq (c : TextCNNConfig) :
    (TextCNN.init c).map (fun m => m.output) = TextCNN.buildOutput c := by
  unfold TextCNN.init
  cases hBO : TextCNN.buildOutput c <;> rfl

theorem textrcnn_init_output_eq (c : TextRCNNConfig) :
    (TextRCNN.init c).map (fun m => m.output) = TextRCNN.buildOutput c := by
  unfold TextRCNN.init
  cases hBO : TextRCNN.buildOutput c <;> rfl

theorem textcnn_call_reconfig (m : TextCNN.Model) (s : String)
    (i : List Nat) :
    (TextCNN.call { m with config :=
      { m.config with pooling_strategy := s } } i).map Prod.snd =
    (TextCNN.call m i).map Prod.snd := by
  unfold TextCNN.call
  dsimp only
  by_cases hlen : i.length = 2
  · rw [if_pos hlen, if_pos hlen]
    cases hk : kerasModelApply m.config.max_seq_len m.output.shape i <;>
      simp [Except.map]
  · rw [if_neg hlen, if_neg hlen]

theorem textrcnn_call_reconfig (m : TextRCNN.Model) (s : String)
    (i : List Nat) :
    (TextRCNN.call { m with config :=
      { m.config with pooling_strategy := s } } i).map Prod.snd =
    (TextRCNN.call m i).map Prod.snd := by
  unfold TextRCNN.call
  dsimp only
  by_cases hlen : i.length = 2
  · rw [if_pos hlen, if_pos hlen]
    cases hk : kerasModelApply m.config.max_seq_len m.output.shape i <;>
      simp [Except.map]
  · rw [if_neg hlen, if_neg hlen]

/-- Claim C4: pooling_strategy is inert: changing it (to any value, so in
particular between REDUCE_MEAN and REDUCE_MAX) only changes the stored
attribute — the built layer graph is identical (so the pooling stays the
max-style pooling the builders wire in), and call outputs are unchanged. -/
theorem claim_C4_pooling_strategy_inert :
    (∀ (c : TextCNNConfig) (s : String),
      TextCNN.init { c with pooling_strategy := s } =
        (TextCNN.init c).map (fun m =>
          { m with config := { m.config with pooling_strategy := s } })) ∧
    (∀ c : TextCNNConfig,
      (TextCNN.init { c with pooling_strategy := "REDUCE_MEAN" }).map
        (fun m => m.output) =
      (TextCNN.init { c with pooling_strategy := "REDUCE_MAX" }).map
        (fun m => m.output)) ∧
    (∀ (m : TextCNN.Model) (s : String) (i : List Nat),
      (TextCNN.call { m with config :=
        { m.config with pooling_strategy := s } } i).map Prod.snd =
      (TextCNN.call m i).map Prod.snd) ∧
    (∀ (c : TextRCNNConfig) (s : String),
      TextRCNN.init { c with pooling_strategy := s } =
        (TextRCNN.init c).map (fun m =>
          { m with config := { m.config with pooling_strategy := s } })) ∧
    (∀ c : TextRCNNConfig,
      (TextRCNN.init { c with pooling_strategy := "REDUCE_MEAN" }).map
        (fun m => m.output) =
      (TextRCNN.init { c with pooling_strategy := "REDUCE_MAX" }).map
        (fun m => m.output)) ∧
    (∀ (m : TextRCNN.Model) (s : String) (i : List Nat),
      (TextRCNN.call { m with config :=
        { m.config with pooling_strategy := s } } i).map Prod.snd =
      (TextRCNN.call m i).map Prod.snd) := by
  refine ⟨textcnn_init_pooling, ?_, textcnn_call_reconfig,
    textrcnn_init_pooling, ?_, textrcnn_call_reconfig⟩
  · intro c
    rw [textcnn_init_output_eq, textcnn_init_output_eq]
    rfl
  · intro c
    rw [textrcnn_init_output_eq, textrcnn_init_output_eq]
    rfl

theorem denseLayer_shape_congr (nc : Nat) (oact : String) {t1 t2 : Tensor}
    (h : t1.shape = t2.shape) :
    (denseLayer nc oact t1).map Tensor.shape =
      (denseLayer nc oact t2).map Tensor.shape := by
  cases ht1 : t1.shape with
  | nil =>
      have ht2 : t2.shape = [] := by rw [← h, ht1]
      simp [denseLayer, ht1, ht2, Except.map]
  | cons d ds =>
      have ht2 : t2.shape = d :: ds := by rw [← h, ht1]
      simp [denseLayer, ht1, ht2, Except.map]

theorem bind_dense_shape_congr {A1 A2 : Except String Tensor}
    (h : A1.map Tensor.shape = A2.map Tensor.shape) (nc : Nat)
    (oact : String) :
    (A1 >>= denseLayer nc oact).map Tensor.shape =
      (A2 >>= denseLayer nc oact).map Tensor.shape := by
  cases A1 with
  | error e1 =>
      cases A2 with
      | error e2 =>
          simp only [Except.map] at h
          rw [except_error_bind, except_error_bind]
          simp [Except.map]
          simpa using h
      | ok t2 => simp [Except.map] at h
  | ok t1 =>
      cases A2 with
      | error e2 => simp [Except.map] at h
      | ok t2 =>
          simp only [Except.map] at h
          rw [except_ok_bind, except_ok_bind]
          exact denseLayer_shape_congr nc oact (by simpa using h)

theorem hiddenStack_shape_congr :
    ∀ (units : List Nat) (act : String) (r1 r2 : Rat) (t1 t2 : Tensor),
      t1.shape = t2.shape →
      (hiddenStack units act r1 t1).map Tensor.shape =
        (hiddenStack units act r2 t2).map Tensor.shape := by
  intro units
  induction units with
  | nil =>
      intro act r1 r2 t1 t2 h
      simp [hiddenStack, Except.map, h]
  | cons n rest ih =>
      intro act r1 r2 t1 t2 h
      cases ht1 : t1.shape with
      | nil =>
          have ht2 : t2.shape = [] := by rw [← h, ht1]
          have hd1 : denseLayer n act t1 =
              Except.error "Dense: input must have a feature axis" := by
            simp [denseLayer, ht1]
          have hd2 : denseLayer n act t2 =
              Except.error "Dense: input must have a feature axis" := by
            simp [denseLayer, ht2]
          simp only [hiddenStack]
          rw [hd1, hd2]
          rfl
      | cons d ds =>
          have ht2 : t2.shape = d :: ds := by rw [← h, ht1]
          have hd1 : denseLayer n act t1 = Except.ok
              ⟨(d :: ds).dropLast ++ [n], .dense n act t1.expr⟩ := by
            simp [denseLayer, ht1]
          have hd2 : denseLayer n act t2 = Except.ok
              ⟨(d :: ds).dropLast ++ [n], .dense n act t2.expr⟩ := by
            simp [denseLayer, ht2]
          simp only [hiddenStack]
          rw [hd1, except_ok_bind, hd2, except_ok_bind]
          by_cases h1 : r1 > 0 <;> by_cases h2 : r2 > 0
          · rw [if_pos h1, if_pos h2]
            rw [show dropoutLayer r1 (⟨(d :: ds).dropLast ++ [n],
                  .dense n act t1.expr⟩ : Tensor) =
                Except.ok ⟨(d :: ds).dropLast ++ [n],
                  .dropout r1 (.dense n act t1.expr)⟩ from rfl,
              except_ok_bind]
            rw [show dropoutLayer r2 (⟨(d :: ds).dropLast ++ [n],
                  .dense n act t2.expr⟩ : Tensor) =
                Except.ok ⟨(d :: ds).dropLast ++ [n],
                  .dropout r2 (.dense n act t2.expr)⟩ from rfl,
              except_ok_bind]
            exact ih act r1 r2 _ _ rfl
          · rw [if_pos h1, if_neg h2]
            rw [show dropoutLayer r1 (⟨(d :: ds).dropLast ++ [n],
                  .dense n act t1.expr⟩ : Tensor) =
                Except.ok ⟨(d :: ds).dropLast ++ [n],
                  .dropout r1 (.dense n act t1.expr)⟩ from rfl,
              except_ok_bind]
            rw [show (pure (⟨(d :: ds).dropLast ++ [n],
                  .dense n act t2.expr⟩ : Tensor) : Except String Tensor) =
                Except.ok ⟨(d :: ds).dropLast ++ [n],
                  .dense n act t2.expr⟩ from rfl, except_ok_bind]
            exact ih act r1 r2 _ _ rfl
          · rw [if_neg h1, if_pos h2]
            rw [show (pure (⟨(d :: ds).dropLast ++ [n],
                  .dense n act t1.expr⟩ : Tensor) : Except String Tensor) =
                Except.ok ⟨(d :: ds).dropLast ++ [n],
                  .dense n act t1.expr⟩ from rfl, except_ok_bind]
            rw [show dropoutLayer r2 (⟨(d :: ds).dropLast ++ [n],
                  .dense n act t2.expr⟩ : Tensor) =
                Except.ok ⟨(d :: ds).dropLast ++ [n],
                  .dropout r2 (.dense n act t2.expr)⟩ from rfl,
              except_ok_bind]
            exact ih act r1 r2 _ _ rfl
          · rw [if_neg h1, if_neg h2]
            rw [show (pure (⟨(d :: ds).dropLast ++ [n],
                  .dense n act t1.expr⟩ : Tensor) : Except String Tensor) =
                Except.ok ⟨(d :: ds).dropLast ++ [n],
                  .dense n act t1.expr⟩ from rfl, except_ok_bind]
            rw [show (pure (⟨(d :: ds).dropLast ++ [n],
                  .dense n act t2.expr⟩ : Tensor) : Except String Tensor) =
                Except.ok ⟨(d :: ds).dropLast ++ [n],
                  .dense n act t2.expr⟩ from rfl, except_ok_bind]
            exact ih act r1 r2 _ _ rfl

theorem graphOutput_shape_dropout (c : TextCNNConfig) (r : Rat) (x : Tensor) :
    (TextCNN.graphOutput { c with dropout := r } x).map Tensor.shape =
      (TextCNN.graphOutput c x).map Tensor.shape := by
  unfold TextCNN.graphOutput
  dsimp only
  rw [show mapME (TextCNN.convBranch { c with dropout := r } x)
      c.filter_sizes = mapME (TextCNN.convBranch c x) c.filter_sizes
      from rfl]
  cases hm : mapME (TextCNN.convBranch c x) c.filter_sizes with
  | error e => rfl
  | ok convs =>
      simp only [except_ok_bind]
      cases hcc : concatenateLayer convs 1 with
      | error e => rfl
      | ok y =>
          simp only [except_ok_bind]
          by_cases h1 : r > 0 <;> by_cases h2 : c.dropout > 0
          · rw [if_pos h1, if_pos h2]
            rw [show dropoutLayer r y =
                Except.ok ⟨y.shape, .dropout r y.expr⟩ from rfl,
              except_ok_bind]
            rw [show dropoutLayer c.dropout y =
                Except.ok ⟨y.shape, .dropout c.dropout y.expr⟩ from rfl,
              except_ok_bind]
            exact bind_dense_shape_congr
              (hiddenStack_shape_congr c.num_hidden_units c.hidden_activation
                r c.dropout ⟨y.shape, .dropout r y.expr⟩
                ⟨y.shape, .dropout c.dropout y.expr⟩ rfl) c.num_classes
              (if c.multi_label = true then "sigmoid" else "softmax")
          · rw [if_pos h1, if_neg h2]
            rw [show dropoutLayer r y =
                Except.ok ⟨y.shape, .dropout r y.expr⟩ from rfl,
              except_ok_bind]
            rw [show (pure y : Except String Tensor) = Except.ok y from rfl,
              except_ok_bind]
            exact bind_dense_shape_congr
              (hiddenStack_shape_congr c.num_hidden_units c.hidden_activation
                r c.dropout ⟨y.shape, .dropout r y.expr⟩ y rfl) c.num_classes
              (if c.multi_label = true then "sigmoid" else "softmax")
          · rw [if_neg h1, if_pos h2]
            rw [show dropoutLayer c.dropout y =
                Except.ok ⟨y.shape, .dropout c.dropout y.expr⟩ from rfl,
              except_ok_bind]
            rw [show (pure y : Except String Tensor) = Except.ok y from rfl,
              except_ok_bind]
            exact bind_dense_shape_congr
              (hiddenStack_shape_congr c.num_hidden_units c.hidden_activation
                r c.dropout y ⟨y.shape, .dropout c.dropout y.expr⟩ rfl)
              c.num_classes
              (if c.multi_label = true then "sigmoid" else "softmax")
          · rw [if_neg h1, if_neg h2]
            rw [show (pure y : Except String Tensor) = Except.ok y from rfl]
            rw [except_ok_bind]
            exact bind_dense_shape_congr
              (hiddenStack_shape_congr c.num_hidden_units c.hidden_activation
                r c.dropout y y rfl) c.num_classes
              (if c.multi_label = true then "sigmoid" else "softmax")

theorem textcnn_buildOutput_shape_dropout (c : TextCNNConfig) (r : Rat) :
    (TextCNN.buildOutput { c with dropout := r }).map Tensor.shape =
      (TextCNN.buildOutput c).map Tensor.shape := by
  unfold TextCNN.buildOutput
  dsimp only
  cases hE : init_embedding_layer c.embedding_matrix c.embedding_dim
      c.embedding_vocab_size c.embedding_trainable c.max_seq_len with
  | error e => rfl
  | ok e =>
      simp only [except_ok_bind]
      exact graphOutput_shape_dropout c r
        (embeddingLayerApply e (inputTensor c.max_seq_len))

theorem textrcnn_buildOutput_shape_dropout (c : TextRCNNConfig) (r : Rat) :
    (TextRCNN.buildOutput { c with dropout := r }).map Tensor.shape =
      (TextRCNN.buildOutput c).map Tensor.shape := by
  unfold TextRCNN.buildOutput
  dsimp only
  cases hE : init_embedding_layer c.embedding_matrix c.embedding_dim
      c.embedding_vocab_size c.embedding_trainable c.max_seq_len with
  | error e => rfl
  | ok e =>
      simp only [except_ok_bind]
      cases hf : lstmLayer c.rnn_hidden_units true false
          (embeddingLayerApply e (inputTensor c.max_seq_len)) with
      | error e2 => rfl
      | ok fwd =>
          simp only [except_ok_bind]
          cases hb0 : lstmLayer c.rnn_hidden_units true true
              (embeddingLayerApply e (inputTensor c.max_seq_len)) with
          | error e2 => rfl
          | ok bwd0 =>
              simp only [except_ok_bind]
              cases hb : reverseLayer bwd0 with
              | error e2 => rfl
              | ok bwd =>
                  simp only [except_ok_bind]
                  cases htg : concatenateLayer [fwd,
                      embeddingLayerApply e (inputTensor c.max_seq_len),
                      bwd] 2 with
                  | error e2 => rfl
                  | ok tg =>
                      simp only [except_ok_bind]
                      cases hsm : conv1dLayer c.conv_hidden_units 1 "tanh"
                          tg with
                      | error e2 => rfl
                      | ok sm =>
                          simp only [except_ok_bind]
                          cases hpl : maxAxis1Layer sm with
                          | error e2 => rfl
                          | ok pl =>
                              simp only [except_ok_bind]
                              exact bind_dense_shape_congr
                                (hiddenStack_shape_congr c.num_hidden_units
                                  c.hidden_activation r c.dropout pl pl rfl)
                                c.num_classes
                                (if c.multi_label = true then "sigmoid"
                                  else "softmax")

theorem textcnn_init_shape_eq (c : TextCNNConfig) :
    (TextCNN.init c).map (fun m => m.output.shape) =
      (TextCNN.buildOutput c).map Tensor.shape := by
  unfold TextCNN.init
  cases hBO : TextCNN.buildOutput c <;> rfl

theorem textrcnn_init_shape_eq (c : TextRCNNConfig) :
    (TextRCNN.init c).map (fun m => m.output.shape) =
      (TextRCNN.buildOutput c).map Tensor.shape := by
  unfold TextRCNN.init
  cases hBO : TextRCNN.buildOutput c <;> rfl

/-- Counterexample to claim C8 as stated: dropout = 2 lies outside [0, 1],
yet TextCNN construction succeeds — neither constructor validates the
dropout range. -/
theorem claim_C8_counterexample_dropout_two :
    ¬(cnnDropoutTwoConfig.dropout ≤ 1) ∧
    TextCNN.init cnnDropoutTwoConfig = Except.ok cnnDropoutTwoModel := by
  constructor
  · decide
  · rfl

/-- Claim C8 (amended): construction performs no dropout-range validation:
for any dropout value (in particular any value outside [0, 1]), replacing
the dropout rate never changes whether construction succeeds, nor the
output shape of the built graph — construction never fails on account of
dropout. -/
theorem claim_C8_amended_dropout_unvalidated :
    (∀ (c : TextCNNConfig) (r : Rat),
      (TextCNN.init { c with dropout := r }).map (fun m => m.output.shape) =
        (TextCNN.init c).map (fun m => m.output.shape)) ∧
    (∀ (c : TextRCNNConfig) (r : Rat),
      (TextRCNN.init { c with dropout := r }).map (fun m => m.output.shape) =
        (TextRCNN.init c).map (fun m => m.output.shape)) := by
  constructor
  · intro c r
    rw [textcnn_init_shape_eq, textcnn_init_shape_eq]
    exact textcnn_buildOutput_shape_dropout c r
  · intro c r
    rw [textrcnn_init_shape_eq, textrcnn_init_shape_eq]
    exact textrcnn_buildOutput_shape_dropout c r
